import Mathlib

/-!
Layer-normalization gradient operators (ROCm training kernels).

A shallow embedding of `orttraining/training_ops/hip/nn/layer_norm.cc`:
the two operator classes `LayerNormGrad` and `InvertibleLayerNormGrad`,
their constructors and their `ComputeInternal` bodies.

Conventions of the embedding.

* Tensor extents are natural numbers, and the products taken by the shape
  utilities are exact. The one product formed in this file, `part_size * n2`,
  is a signed 64-bit product: it is taken with two's-complement wrap-around
  and then converted to the `size_t` count of the scratch request.
* Element values are rationals: the storage type `T` and the statistics type
  `U` of the templates appear only as tags on allocations, and rounding is
  not modelled.
* The framework calls made by `ComputeInternal` that have an effect
  (`Output`, `GetScratchBuffer`, the launch of `HostLayerNormGradient`) are
  recorded, in program order, in a trace; `ORT_ENFORCE` failures end the run
  with the trace collected so far.
* The operator is registered with five required inputs, so the context holds
  five tensors; data pointers are the tensors' flat row-major element lists.
  The typed accessors `Data<T>` and `MutableData<T>` have no effect of their
  own: element types are fixed by the type constraints of the registration.
-/

set_option linter.dupNamespace false

namespace onnxruntime
namespace rocm

/-! ## Framework data model -/

/-- Ordered sequence of dimension extents. -/
structure TensorShape where
  dims : List Nat
  deriving DecidableEq, Repr

/-- Rank of the shape. -/
def TensorShape.NumDimensions (s : TensorShape) : Nat := s.dims.length

/-- Total number of elements. -/
def TensorShape.Size (s : TensorShape) : Nat := s.dims.prod

/-- Modelled from the spec: the shape utility `SizeToDimension`, whose body is
not part of the sources at hand; section 6 describes it as the product of the
extents before the given axis. -/
def TensorShape.SizeToDimension (s : TensorShape) (dimension : Nat) : Nat :=
  (s.dims.take dimension).prod

/-- Modelled from the spec: the shape utility `SizeFromDimension`, whose body
is not part of the sources at hand; section 6 describes it as the product of
the extents from the given axis onward. -/
def TensorShape.SizeFromDimension (s : TensorShape) (dimension : Nat) : Nat :=
  (s.dims.drop dimension).prod

/-- Dense tensor: a shape and the flat row-major element list. -/
structure Tensor where
  shape : TensorShape
  data : List ℚ
  deriving DecidableEq, Repr

/-- Shape accessor, as in `Tensor::Shape()`. -/
def Tensor.Shape (t : Tensor) : TensorShape := t.shape

/-- The two template type parameters: storage type `T`, statistics type `U`. -/
inductive ElemType
  | T
  | U
  deriving DecidableEq, Repr

/-- Attribute payloads carried by kernel info. -/
inductive AttrValue
  | int (v : Int)
  | float (v : ℚ)
  | string (s : String)
  deriving DecidableEq, Repr

/-- Kernel construction info: the node's attributes by name. -/
structure OpKernelInfo where
  attrs : List (String × AttrValue)
  deriving DecidableEq, Repr

/-- Modelled from the spec: the attribute reader `GetAttr` for an integer
attribute, whose body is not part of the sources at hand (attribute parsing is
an external collaborator in section 1). The read succeeds with the stored
value exactly when the node carries an integer attribute of that name. -/
def OpKernelInfo.GetAttr (op_kernel_info : OpKernelInfo) (name : String) : Except String Int :=
  match op_kernel_info.attrs.lookup name with
  | some (AttrValue.int v) => Except.ok v
  | some _ => Except.error "attribute has another type"
  | none => Except.error "no attribute with this name"

/-- Status test on an attribute read, as in `Status::IsOK()`. -/
def IsOK {α : Type} (r : Except String α) : Bool :=
  match r with
  | Except.ok _ => true
  | Except.error _ => false

/-- Modelled from the spec: axis normalization `HandleNegativeAxis`, whose
body is not part of the sources at hand. Section 6 has negative values count
from the last dimension, and sections 4.3 and 7 make an axis outside the
tensor's rank a fatal error of the invocation. -/
def HandleNegativeAxis (axis : Int) (tensor_rank : Nat) : Except String Int :=
  if -(tensor_rank : Int) ≤ axis ∧ axis ≤ (tensor_rank : Int) - 1 then
    Except.ok (if axis < 0 then axis + tensor_rank else axis)
  else
    Except.error "axis out of range for the tensor rank"

/-- The five operator inputs, by position. -/
structure OpKernelContext where
  input0 : Tensor
  input1 : Tensor
  input2 : Tensor
  input3 : Tensor
  input4 : Tensor
  deriving DecidableEq, Repr

/-- Arguments of one `HostLayerNormGradient` launch, in call order. Input
pointers are element lists, `none` being the null pointer; output and scratch
pointers are the index of the output, respectively the ordinal of the scratch
allocation, they were obtained from. -/
structure KernelArgs where
  Y_grad_data : List ℚ
  X_data : Option (List ℚ)
  Y_data : Option (List ℚ)
  scale_data : List ℚ
  bias_data : Option (List ℚ)
  mean_data : Option (List ℚ)
  inv_std_var_data : List ℚ
  n1 : Nat
  n2 : Nat
  X_grad_data : Nat
  scale_grad_data : Nat
  bias_grad_data : Nat
  part_grad_gamma : Nat
  part_grad_beta : Nat
  part_size : Nat
  deriving DecidableEq, Repr

/-- Effects of `ComputeInternal` on its environment. -/
inductive Event
  | Output (index : Nat) (shape : TensorShape)
  | GetScratchBuffer (ty : ElemType) (count : Nat)
  | HostLayerNormGradient (args : KernelArgs)
  deriving DecidableEq, Repr

/-- How a run ends: `Status::OK()` returned, or an `ORT_ENFORCE` failure. -/
inductive Status
  | OK
  | Failed (what : String)
  deriving DecidableEq, Repr

/-- Result of a run: the effects in program order and the final status. -/
structure Outcome where
  trace : List Event
  status : Status
  deriving DecidableEq, Repr

/-- Value of an `int64_t` expression whose exact value is `x`: the
representative of `x` modulo `2^64` in the signed 64-bit range. -/
def wrapInt64 (x : Int) : Int := (x + 2 ^ 63) % 2 ^ 64 - 2 ^ 63

/-- Conversion of an `int64_t` value to `size_t`. -/
def toSizeT (x : Int) : Nat := (x % 2 ^ 64).toNat

/-! ## The two operators -/

/-- Operator state of `LayerNormGrad<T, U>`. -/
structure LayerNormGrad where
  axis_ : Int
  deriving DecidableEq, Repr

/-- Operator state of `InvertibleLayerNormGrad<T, U>`. -/
structure InvertibleLayerNormGrad where
  axis_ : Int
  deriving DecidableEq, Repr

/-- Constructor `LayerNormGrad::LayerNormGrad`: enforces that the read of
`axis` is OK. -/
def LayerNormGrad.LayerNormGrad (op_kernel_info : OpKernelInfo) :
    Except String rocm.LayerNormGrad :=
  match op_kernel_info.GetAttr "axis" with
  | Except.ok axis => Except.ok (rocm.LayerNormGrad.mk axis)
  | Except.error _ => Except.error "GetAttr axis is not OK"

/-- Constructor `InvertibleLayerNormGrad::InvertibleLayerNormGrad`: enforces
that the read of `axis` is OK. -/
def InvertibleLayerNormGrad.InvertibleLayerNormGrad (op_kernel_info : OpKernelInfo) :
    Except String rocm.InvertibleLayerNormGrad :=
  match op_kernel_info.GetAttr "axis" with
  | Except.ok axis => Except.ok (rocm.InvertibleLayerNormGrad.mk axis)
  | Except.error _ => Except.error "GetAttr axis is not OK"

/-- Body of `LayerNormGrad::ComputeInternal`. -/
def LayerNormGrad.ComputeInternal (self : rocm.LayerNormGrad) (ctx : OpKernelContext) : Outcome :=
  -- Inputs
  let Y_grad := ctx.input0
  let X := ctx.input1
  let scale := ctx.input2
  let mean := ctx.input3
  let inv_std_var := ctx.input4
  let x_shape := X.Shape
  match HandleNegativeAxis self.axis_ x_shape.NumDimensions with
  | Except.error what => Outcome.mk [] (Status.Failed what)
  | Except.ok axis =>
    let n1 := x_shape.SizeToDimension axis.toNat
    let n2 := x_shape.SizeFromDimension axis.toNat
    if n2 = 1 then Outcome.mk [] (Status.Failed "n2 should not be 1")
    else
      -- Outputs
      let part_size : Nat := 16
      Outcome.mk
        [Event.Output 0 x_shape,
         Event.Output 1 scale.Shape,
         Event.Output 2 scale.Shape,
         Event.GetScratchBuffer ElemType.U (toSizeT (wrapInt64 ((part_size : Int) * (n2 : Int)))),
         Event.GetScratchBuffer ElemType.U (toSizeT (wrapInt64 ((part_size : Int) * (n2 : Int)))),
         Event.HostLayerNormGradient
           (KernelArgs.mk Y_grad.data (some X.data) none
             scale.data none (some mean.data) inv_std_var.data n1 n2
             0 1 2
             0 1 part_size)]
        Status.OK

/-- Body of `InvertibleLayerNormGrad::ComputeInternal`. -/
def InvertibleLayerNormGrad.ComputeInternal (self : rocm.InvertibleLayerNormGrad)
    (ctx : OpKernelContext) : Outcome :=
  -- Inputs
  let Y_grad := ctx.input0
  let Y := ctx.input1
  let scale := ctx.input2
  let bias := ctx.input3
  let inv_std_var := ctx.input4
  let y_shape := Y.Shape
  let x_shape := y_shape
  match HandleNegativeAxis self.axis_ x_shape.NumDimensions with
  | Except.error what => Outcome.mk [] (Status.Failed what)
  | Except.ok axis =>
    let n1 := x_shape.SizeToDimension axis.toNat
    let n2 := x_shape.SizeFromDimension axis.toNat
    if n2 = 1 then Outcome.mk [] (Status.Failed "n2 should not be 1")
    else
      -- Outputs
      let part_size : Nat := 16
      Outcome.mk
        [Event.Output 0 x_shape,
         Event.Output 1 scale.Shape,
         Event.Output 2 scale.Shape,
         Event.GetScratchBuffer ElemType.U (toSizeT (wrapInt64 ((part_size : Int) * (n2 : Int)))),
         Event.GetScratchBuffer ElemType.U (toSizeT (wrapInt64 ((part_size : Int) * (n2 : Int)))),
         Event.HostLayerNormGradient
           (KernelArgs.mk Y_grad.data none (some Y.data)
             scale.data (some bias.data) none inv_std_var.data n1 n2
             0 1 2
             0 1 part_size)]
        Status.OK

/-! ## The launched computation

`HostLayerNormGradient` lives in the device source, which is not among the
sources at hand; the definitions of this section follow sections 3, 4.1 and
4.2 of the specification. Concurrent atomic additions are serialized in
row-major order. -/

/-- Upstream gradient `dY[i][j]` of a launch. -/
def dY (a : KernelArgs) (i j : Nat) : ℚ := a.Y_grad_data.getD (i * a.n2 + j) 0

/-- Modelled from the spec: the normalized value `x_hat[i][j]` of section 4.1
item 1, the device code being absent. With `X` and `mean` present it is
`(X[i][j] - mean[i]) * inv_std[i]`; otherwise, with `Y` and `bias` present, it
is reconstructed as `(Y[i][j] - bias[j]) / scale[j]`. -/
def x_hat (a : KernelArgs) (i j : Nat) : ℚ :=
  match a.X_data, a.mean_data with
  | some X, some mean =>
    (X.getD (i * a.n2 + j) 0 - mean.getD i 0) * a.inv_std_var_data.getD i 0
  | _, _ =>
    match a.Y_data, a.bias_data with
    | some Y, some bias => (Y.getD (i * a.n2 + j) 0 - bias.getD j 0) / a.scale_data.getD j 0
    | _, _ => 0

/-- Modelled from the spec: the input gradient of section 4.1 item 2, the
device code being absent: the direct term, minus the mean-correction term,
minus the variance-correction term, the two row averages being taken over the
`n2` columns. -/
def X_grad_value (a : KernelArgs) (i j : Nat) : ℚ :=
  let inv_std := a.inv_std_var_data.getD i 0
  let avg_ds :=
    ((List.range a.n2).map (fun k => dY a i k * a.scale_data.getD k 0)).sum / a.n2
  let avg_dsx :=
    ((List.range a.n2).map (fun k => dY a i k * a.scale_data.getD k 0 * x_hat a i k)).sum / a.n2
  dY a i j * a.scale_data.getD j 0 * inv_std - avg_ds * inv_std - avg_dsx * (x_hat a i j * inv_std)

/-- Modelled from the spec: one race-free accumulation of section 4.1 item 3,
the device code being absent: `v` is added into the cell `[p][j]` of a
partial-accumulation array stored flat with row length `n2`. -/
def atomicAdd (buf : List ℚ) (n2 p j : Nat) (v : ℚ) : List ℚ :=
  buf.set (p * n2 + j) (buf.getD (p * n2 + j) 0 + v)

/-- Modelled from the spec: the accumulation phase of the per-element kernel
(section 4.1 item 3), the device code being absent. Every element `(i, j)`
adds its contribution into the cell `[partition i][j]`. -/
def PartialAccumulation (contribution : Nat → Nat → ℚ) (partition : Nat → Nat)
    (n1 n2 : Nat) (buf : List ℚ) : List ℚ :=
  (List.range n1).foldl
    (fun b i => (List.range n2).foldl
      (fun b j => atomicAdd b n2 (partition i) j (contribution i j)) b)
    buf

/-- Modelled from the spec: the partial reduction kernel of section 4.2, the
device code being absent: for each column the `P` partition entries are
summed. -/
def PartialReduction (part : List ℚ) (P n2 : Nat) : List ℚ :=
  (List.range n2).map (fun j => ((List.range P).map (fun p => part.getD (p * n2 + j) 0)).sum)

/-- Results of one launch: the three output buffers. -/
structure Gradients where
  X_grad : List ℚ
  scale_grad : List ℚ
  bias_grad : List ℚ
  deriving DecidableEq, Repr

/-- Modelled from the spec: the two-phase computation behind
`HostLayerNormGradient` (data flow of section 2), the device code being
absent. `P` is the partition count and `partition` the row-to-partition
mapping; both partial-accumulation arrays have `P * n2` cells and start at
zero. -/
def HostLayerNormGradient (a : KernelArgs) (P : Nat) (partition : Nat → Nat) : Gradients :=
  let part_grad_gamma :=
    PartialAccumulation (fun i j => dY a i j * x_hat a i j) partition a.n1 a.n2
      (List.replicate (P * a.n2) 0)
  let part_grad_beta :=
    PartialAccumulation (fun i j => dY a i j) partition a.n1 a.n2
      (List.replicate (P * a.n2) 0)
  Gradients.mk
    ((List.range (a.n1 * a.n2)).map (fun e => X_grad_value a (e / a.n2) (e % a.n2)))
    (PartialReduction part_grad_gamma P a.n2)
    (PartialReduction part_grad_beta P a.n2)

/-- Modelled from the spec: the row-to-partition mapping named in section 3,
row `i` going to partition `i mod P`. -/
def defaultPartition (P : Nat) (i : Nat) : Nat := i % P

/-- The launch recorded in a trace, when there is one. -/
def launchOf : List Event → Option KernelArgs
  | [] => none
  | Event.HostLayerNormGradient a :: _ => some a
  | _ :: rest => launchOf rest

/-- Shapes of the outputs requested in a trace at a given output index. -/
def outputShapes (index : Nat) : List Event → List TensorShape
  | [] => []
  | Event.Output k s :: rest =>
    if k = index then s :: outputShapes index rest else outputShapes index rest
  | _ :: rest => outputShapes index rest

/-- Scratch allocations of a trace, in order: element type and element count. -/
def scratchBuffers : List Event → List (ElemType × Nat)
  | [] => []
  | Event.GetScratchBuffer ty count :: rest => (ty, count) :: scratchBuffers rest
  | _ :: rest => scratchBuffers rest

/-- The substitution that turns a Standard launch into an Invertible one: the
roles of `X` and `Y`, and of `mean` and `bias`, are exchanged. -/
def KernelArgs.exchange (a : KernelArgs) : KernelArgs :=
  KernelArgs.mk a.Y_grad_data a.Y_data a.X_data a.scale_data a.mean_data a.bias_data
    a.inv_std_var_data a.n1 a.n2 a.X_grad_data a.scale_grad_data a.bias_grad_data
    a.part_grad_gamma a.part_grad_beta a.part_size

/-- The exchange applied to the launch of a trace; other events are kept. -/
def Event.exchange : Event → Event
  | Event.HostLayerNormGradient a => Event.HostLayerNormGradient a.exchange
  | e => e

/-! ## Auxiliary facts -/

theorem handleNegativeAxis_resolved (axis_ : Int) (r k : Nat) (hk : k < r)
    (hax : axis_ = (k : Int) ∨ axis_ = (k : Int) - r) :
    HandleNegativeAxis axis_ r = Except.ok (k : Int) := by
  unfold HandleNegativeAxis
  rcases hax with h | h
  · subst h
    have h1 : -(r : Int) ≤ (k : Int) ∧ (k : Int) ≤ (r : Int) - 1 := by omega
    have h2 : ¬ ((k : Int) < 0) := by omega
    simp only [h1, h2, and_self, if_true, if_false]
  · subst h
    have h1 : -(r : Int) ≤ (k : Int) - r ∧ (k : Int) - r ≤ (r : Int) - 1 := by omega
    have h2 : (k : Int) - r < 0 := by omega
    simp only [h1, h2, and_self, if_true]
    congr 1
    omega

theorem handleNegativeAxis_rejected (axis_ : Int) (r : Nat)
    (hax : axis_ < -(r : Int) ∨ (r : Int) ≤ axis_) :
    HandleNegativeAxis axis_ r = Except.error "axis out of range for the tensor rank" := by
  unfold HandleNegativeAxis
  have h1 : ¬ (-(r : Int) ≤ axis_ ∧ axis_ ≤ (r : Int) - 1) := by omega
  simp only [h1, if_false]

theorem standard_run_of_resolved (axis_ : Int) (ctx : OpKernelContext) (k : Nat)
    (h : HandleNegativeAxis axis_ ctx.input1.Shape.NumDimensions = Except.ok (k : Int)) :
    LayerNormGrad.ComputeInternal (LayerNormGrad.mk axis_) ctx =
      if ctx.input1.Shape.SizeFromDimension k = 1 then
        Outcome.mk [] (Status.Failed "n2 should not be 1")
      else
        Outcome.mk
          [Event.Output 0 ctx.input1.Shape,
           Event.Output 1 ctx.input2.Shape,
           Event.Output 2 ctx.input2.Shape,
           Event.GetScratchBuffer ElemType.U
             (toSizeT (wrapInt64 (((16 : Nat) : Int) * (ctx.input1.Shape.SizeFromDimension k : Int)))),
           Event.GetScratchBuffer ElemType.U
             (toSizeT (wrapInt64 (((16 : Nat) : Int) * (ctx.input1.Shape.SizeFromDimension k : Int)))),
           Event.HostLayerNormGradient
             (KernelArgs.mk ctx.input0.data (some ctx.input1.data) none
               ctx.input2.data none (some ctx.input3.data) ctx.input4.data
               (ctx.input1.Shape.SizeToDimension k) (ctx.input1.Shape.SizeFromDimension k)
               0 1 2 0 1 16)]
          Status.OK := by
  simp only [LayerNormGrad.ComputeInternal, h, Int.toNat_ofNat]

theorem invertible_run_of_resolved (axis_ : Int) (ctx : OpKernelContext) (k : Nat)
    (h : HandleNegativeAxis axis_ ctx.input1.Shape.NumDimensions = Except.ok (k : Int)) :
    InvertibleLayerNormGrad.ComputeInternal (InvertibleLayerNormGrad.mk axis_) ctx =
      if ctx.input1.Shape.SizeFromDimension k = 1 then
        Outcome.mk [] (Status.Failed "n2 should not be 1")
      else
        Outcome.mk
          [Event.Output 0 ctx.input1.Shape,
           Event.Output 1 ctx.input2.Shape,
           Event.Output 2 ctx.input2.Shape,
           Event.GetScratchBuffer ElemType.U
             (toSizeT (wrapInt64 (((16 : Nat) : Int) * (ctx.input1.Shape.SizeFromDimension k : Int)))),
           Event.GetScratchBuffer ElemType.U
             (toSizeT (wrapInt64 (((16 : Nat) : Int) * (ctx.input1.Shape.SizeFromDimension k : Int)))),
           Event.HostLayerNormGradient
             (KernelArgs.mk ctx.input0.data none (some ctx.input1.data)
               ctx.input2.data (some ctx.input3.data) none ctx.input4.data
               (ctx.input1.Shape.SizeToDimension k) (ctx.input1.Shape.SizeFromDimension k)
               0 1 2 0 1 16)]
          Status.OK := by
  simp only [InvertibleLayerNormGrad.ComputeInternal, h, Int.toNat_ofNat]

theorem standard_run_of_rejected (axis_ : Int) (ctx : OpKernelContext) (what : String)
    (h : HandleNegativeAxis axis_ ctx.input1.Shape.NumDimensions = Except.error what) :
    LayerNormGrad.ComputeInternal (LayerNormGrad.mk axis_) ctx =
      Outcome.mk [] (Status.Failed what) := by
  simp only [LayerNormGrad.ComputeInternal, h]

theorem invertible_run_of_rejected (axis_ : Int) (ctx : OpKernelContext) (what : String)
    (h : HandleNegativeAxis axis_ ctx.input1.Shape.NumDimensions = Except.error what) :
    InvertibleLayerNormGrad.ComputeInternal (InvertibleLayerNormGrad.mk axis_) ctx =
      Outcome.mk [] (Status.Failed what) := by
  simp only [InvertibleLayerNormGrad.ComputeInternal, h]

/-- Every axis either resolves to a position below the rank or is rejected. -/
theorem handleNegativeAxis_cases (axis_ : Int) (r : Nat) :
    (∃ k : Nat, k < r ∧ HandleNegativeAxis axis_ r = Except.ok (k : Int)) ∨
    HandleNegativeAxis axis_ r = Except.error "axis out of range for the tensor rank" := by
  by_cases h : -(r : Int) ≤ axis_ ∧ axis_ ≤ (r : Int) - 1
  · left
    by_cases hneg : axis_ < 0
    · refine ⟨(axis_ + r).toNat, by omega, ?_⟩
      apply handleNegativeAxis_resolved _ _ _ (by omega)
      right
      omega
    · refine ⟨axis_.toNat, by omega, ?_⟩
      apply handleNegativeAxis_resolved _ _ _ (by omega)
      left
      omega
  · right
    apply handleNegativeAxis_rejected
    omega

/-! ## Validation of the invocation -/

/-- C1: for both operators, whenever the configured axis is in range for the
tensor at input position 1 (it is `k` or `k - r` for a position `k` below the
rank `r`) and the extents from position `k` onward multiply to 1, the run ends
with the failure "n2 should not be 1" and an empty trace: no output was
requested, no scratch buffer obtained and the kernel was not launched. -/
theorem degenerate_n2_rejected (ctx : OpKernelContext) (axis_ : Int) (k : Nat)
    (hk : k < ctx.input1.Shape.NumDimensions)
    (hax : axis_ = (k : Int) ∨ axis_ = (k : Int) - ctx.input1.Shape.NumDimensions)
    (hn2 : (ctx.input1.Shape.dims.drop k).prod = 1) :
    LayerNormGrad.ComputeInternal (LayerNormGrad.mk axis_) ctx =
        Outcome.mk [] (Status.Failed "n2 should not be 1") ∧
      InvertibleLayerNormGrad.ComputeInternal (InvertibleLayerNormGrad.mk axis_) ctx =
        Outcome.mk [] (Status.Failed "n2 should not be 1") := by
  have hres := handleNegativeAxis_resolved axis_ _ k hk hax
  have hone : ctx.input1.Shape.SizeFromDimension k = 1 := hn2
  constructor
  · rw [standard_run_of_resolved axis_ ctx k hres, if_pos hone]
  · rw [invertible_run_of_resolved axis_ ctx k hres, if_pos hone]

theorem degenerate_n2_rejected_witness :
    LayerNormGrad.ComputeInternal (LayerNormGrad.mk (-1))
        (OpKernelContext.mk ⟨⟨[3, 1]⟩, [1, 1, 1]⟩ ⟨⟨[3, 1]⟩, [4, 5, 6]⟩ ⟨⟨[1]⟩, [2]⟩
          ⟨⟨[3]⟩, [4, 5, 6]⟩ ⟨⟨[3]⟩, [1, 1, 1]⟩) =
        Outcome.mk [] (Status.Failed "n2 should not be 1") ∧
      InvertibleLayerNormGrad.ComputeInternal (InvertibleLayerNormGrad.mk (-1))
        (OpKernelContext.mk ⟨⟨[3, 1]⟩, [1, 1, 1]⟩ ⟨⟨[3, 1]⟩, [4, 5, 6]⟩ ⟨⟨[1]⟩, [2]⟩
          ⟨⟨[3]⟩, [4, 5, 6]⟩ ⟨⟨[3]⟩, [1, 1, 1]⟩) =
        Outcome.mk [] (Status.Failed "n2 should not be 1") :=
  degenerate_n2_rejected
    (OpKernelContext.mk ⟨⟨[3, 1]⟩, [1, 1, 1]⟩ ⟨⟨[3, 1]⟩, [4, 5, 6]⟩ ⟨⟨[1]⟩, [2]⟩
      ⟨⟨[3]⟩, [4, 5, 6]⟩ ⟨⟨[3]⟩, [1, 1, 1]⟩)
    (-1) 1 (by decide) (Or.inr (by decide)) (by decide)

/-- C2: for a tensor of rank `r ≥ 1` at input position 1 and a negative axis
`a` with `-r ≤ a < 0`, axis resolution gives the same position for `a` and
for `a + r`, so the same `n1` and `n2` are derived, and each operator
configured with `a` runs exactly as when configured with `a + r`: same
status, same trace, same launch arguments. -/
theorem negative_axis_equivalent (ctx : OpKernelContext) (a : Int)
    (hr : 1 ≤ ctx.input1.Shape.NumDimensions)
    (hlo : -(ctx.input1.Shape.NumDimensions : Int) ≤ a) (hneg : a < 0) :
    (∃ k : Nat, k < ctx.input1.Shape.NumDimensions ∧
        HandleNegativeAxis a ctx.input1.Shape.NumDimensions = Except.ok (k : Int) ∧
        HandleNegativeAxis (a + ctx.input1.Shape.NumDimensions)
          ctx.input1.Shape.NumDimensions = Except.ok (k : Int)) ∧
      LayerNormGrad.ComputeInternal (LayerNormGrad.mk a) ctx =
        LayerNormGrad.ComputeInternal
          (LayerNormGrad.mk (a + ctx.input1.Shape.NumDimensions)) ctx ∧
      InvertibleLayerNormGrad.ComputeInternal (InvertibleLayerNormGrad.mk a) ctx =
        InvertibleLayerNormGrad.ComputeInternal
          (InvertibleLayerNormGrad.mk (a + ctx.input1.Shape.NumDimensions)) ctx := by
  have hk : (a + ctx.input1.Shape.NumDimensions).toNat < ctx.input1.Shape.NumDimensions := by
    omega
  have h1 := handleNegativeAxis_resolved a _ _ hk (Or.inr (by omega))
  have h2 := handleNegativeAxis_resolved (a + ctx.input1.Shape.NumDimensions) _ _ hk
    (Or.inl (by omega))
  refine ⟨⟨_, hk, h1, h2⟩, ?_, ?_⟩
  · rw [standard_run_of_resolved _ ctx _ h1, standard_run_of_resolved _ ctx _ h2]
  · rw [invertible_run_of_resolved _ ctx _ h1, invertible_run_of_resolved _ ctx _ h2]

theorem negative_axis_equivalent_witness :
    (∃ k : Nat, k < 3 ∧ HandleNegativeAxis (-1) 3 = Except.ok (k : Int) ∧
        HandleNegativeAxis (-1 + (3 : Nat)) 3 = Except.ok (k : Int)) ∧
      LayerNormGrad.ComputeInternal (LayerNormGrad.mk (-1))
          (OpKernelContext.mk ⟨⟨[2, 2, 3]⟩, []⟩ ⟨⟨[2, 2, 3]⟩, []⟩ ⟨⟨[3]⟩, []⟩
            ⟨⟨[2, 2]⟩, []⟩ ⟨⟨[2, 2]⟩, []⟩) =
        LayerNormGrad.ComputeInternal (LayerNormGrad.mk (-1 + (3 : Nat)))
          (OpKernelContext.mk ⟨⟨[2, 2, 3]⟩, []⟩ ⟨⟨[2, 2, 3]⟩, []⟩ ⟨⟨[3]⟩, []⟩
            ⟨⟨[2, 2]⟩, []⟩ ⟨⟨[2, 2]⟩, []⟩) ∧
      InvertibleLayerNormGrad.ComputeInternal (InvertibleLayerNormGrad.mk (-1))
          (OpKernelContext.mk ⟨⟨[2, 2, 3]⟩, []⟩ ⟨⟨[2, 2, 3]⟩, []⟩ ⟨⟨[3]⟩, []⟩
            ⟨⟨[2, 2]⟩, []⟩ ⟨⟨[2, 2]⟩, []⟩) =
        InvertibleLayerNormGrad.ComputeInternal (InvertibleLayerNormGrad.mk (-1 + (3 : Nat)))
          (OpKernelContext.mk ⟨⟨[2, 2, 3]⟩, []⟩ ⟨⟨[2, 2, 3]⟩, []⟩ ⟨⟨[3]⟩, []⟩
            ⟨⟨[2, 2]⟩, []⟩ ⟨⟨[2, 2]⟩, []⟩) :=
  negative_axis_equivalent
    (OpKernelContext.mk ⟨⟨[2, 2, 3]⟩, []⟩ ⟨⟨[2, 2, 3]⟩, []⟩ ⟨⟨[3]⟩, []⟩
      ⟨⟨[2, 2]⟩, []⟩ ⟨⟨[2, 2]⟩, []⟩)
    (-1) (by decide) (by decide) (by decide)

/-- C6: for both operators, when the configured axis lies outside
`[-r, r-1]` for the rank `r` of the tensor at input position 1, axis
resolution itself fails, and the run ends with that failure (which is not the
`n2` failure) and an empty trace: no output requested, no scratch buffer
obtained, no kernel launched. -/
theorem axis_out_of_range_rejected (ctx : OpKernelContext) (axis_ : Int)
    (hax : axis_ < -(ctx.input1.Shape.NumDimensions : Int) ∨
      (ctx.input1.Shape.NumDimensions : Int) - 1 < axis_) :
    HandleNegativeAxis axis_ ctx.input1.Shape.NumDimensions =
        Except.error "axis out of range for the tensor rank" ∧
      LayerNormGrad.ComputeInternal (LayerNormGrad.mk axis_) ctx =
        Outcome.mk [] (Status.Failed "axis out of range for the tensor rank") ∧
      InvertibleLayerNormGrad.ComputeInternal (InvertibleLayerNormGrad.mk axis_) ctx =
        Outcome.mk [] (Status.Failed "axis out of range for the tensor rank") ∧
      Status.Failed "axis out of range for the tensor rank" ≠
        Status.Failed "n2 should not be 1" := by
  have h := handleNegativeAxis_rejected axis_ ctx.input1.Shape.NumDimensions (by omega)
  exact ⟨h, standard_run_of_rejected axis_ ctx _ h, invertible_run_of_rejected axis_ ctx _ h,
    by decide⟩

theorem axis_out_of_range_rejected_witness :
    HandleNegativeAxis 2 (OpKernelContext.mk ⟨⟨[2, 1]⟩, []⟩ ⟨⟨[2, 1]⟩, []⟩ ⟨⟨[1]⟩, []⟩
          ⟨⟨[2]⟩, []⟩ ⟨⟨[2]⟩, []⟩).input1.Shape.NumDimensions =
        Except.error "axis out of range for the tensor rank" ∧
      LayerNormGrad.ComputeInternal (LayerNormGrad.mk 2)
          (OpKernelContext.mk ⟨⟨[2, 1]⟩, []⟩ ⟨⟨[2, 1]⟩, []⟩ ⟨⟨[1]⟩, []⟩
            ⟨⟨[2]⟩, []⟩ ⟨⟨[2]⟩, []⟩) =
        Outcome.mk [] (Status.Failed "axis out of range for the tensor rank") ∧
      InvertibleLayerNormGrad.ComputeInternal (InvertibleLayerNormGrad.mk 2)
          (OpKernelContext.mk ⟨⟨[2, 1]⟩, []⟩ ⟨⟨[2, 1]⟩, []⟩ ⟨⟨[1]⟩, []⟩
            ⟨⟨[2]⟩, []⟩ ⟨⟨[2]⟩, []⟩) =
        Outcome.mk [] (Status.Failed "axis out of range for the tensor rank") ∧
      Status.Failed "axis out of range for the tensor rank" ≠
        Status.Failed "n2 should not be 1" :=
  axis_out_of_range_rejected
    (OpKernelContext.mk ⟨⟨[2, 1]⟩, []⟩ ⟨⟨[2, 1]⟩, []⟩ ⟨⟨[1]⟩, []⟩ ⟨⟨[2]⟩, []⟩ ⟨⟨[2]⟩, []⟩)
    2 (Or.inr (by decide))

/-! ## Construction -/

theorem getAttr_absent (info : OpKernelInfo) (name : String)
    (h : info.attrs.lookup name = none) : IsOK (info.GetAttr name) = false := by
  simp only [OpKernelInfo.GetAttr, h, IsOK]

theorem getAttr_int (info : OpKernelInfo) (name : String) (v : Int)
    (h : info.attrs.lookup name = some (AttrValue.int v)) :
    info.GetAttr name = Except.ok v := by
  simp only [OpKernelInfo.GetAttr, h]

/-- C4, the claim as stated fails: kernel info without an `axis` attribute
does not construct an operator with axis 1; both constructors fail on it. -/
theorem no_axis_default_counterexample :
    LayerNormGrad.LayerNormGrad (OpKernelInfo.mk []) ≠ Except.ok (LayerNormGrad.mk 1) ∧
      IsOK (LayerNormGrad.LayerNormGrad (OpKernelInfo.mk [])) = false ∧
      InvertibleLayerNormGrad.InvertibleLayerNormGrad (OpKernelInfo.mk []) ≠
        Except.ok (InvertibleLayerNormGrad.mk 1) ∧
      IsOK (InvertibleLayerNormGrad.InvertibleLayerNormGrad (OpKernelInfo.mk [])) = false := by
  refine ⟨?_, rfl, ?_, rfl⟩
  · intro h
    cases h
  · intro h
    cases h

/-- C4, amended: `axis` is an integer option without a default in these
kernels. For both operators, construction from kernel info carrying no `axis`
attribute fails, and construction from kernel info whose `axis` attribute is
the integer `a` succeeds and leaves the operator's axis equal to `a`. -/
theorem axis_attribute_required (info : OpKernelInfo) :
    (info.attrs.lookup "axis" = none →
        IsOK (LayerNormGrad.LayerNormGrad info) = false ∧
        IsOK (InvertibleLayerNormGrad.InvertibleLayerNormGrad info) = false) ∧
      (∀ a : Int, info.attrs.lookup "axis" = some (AttrValue.int a) →
        LayerNormGrad.LayerNormGrad info = Except.ok (LayerNormGrad.mk a) ∧
        InvertibleLayerNormGrad.InvertibleLayerNormGrad info =
          Except.ok (InvertibleLayerNormGrad.mk a)) := by
  constructor
  · intro h
    simp only [LayerNormGrad.LayerNormGrad, InvertibleLayerNormGrad.InvertibleLayerNormGrad,
      OpKernelInfo.GetAttr, h, IsOK, and_self]
  · intro a h
    simp only [LayerNormGrad.LayerNormGrad, InvertibleLayerNormGrad.InvertibleLayerNormGrad,
      getAttr_int info "axis" a h, and_self]

theorem axis_attribute_required_witness :
    (IsOK (LayerNormGrad.LayerNormGrad (OpKernelInfo.mk [("epsilon", AttrValue.float 1)])) = false ∧
        IsOK (InvertibleLayerNormGrad.InvertibleLayerNormGrad
          (OpKernelInfo.mk [("epsilon", AttrValue.float 1)])) = false) ∧
      (LayerNormGrad.LayerNormGrad (OpKernelInfo.mk [("axis", AttrValue.int (-1))]) =
          Except.ok (LayerNormGrad.mk (-1)) ∧
        InvertibleLayerNormGrad.InvertibleLayerNormGrad
            (OpKernelInfo.mk [("axis", AttrValue.int (-1))]) =
          Except.ok (InvertibleLayerNormGrad.mk (-1))) :=
  ⟨(axis_attribute_required (OpKernelInfo.mk [("epsilon", AttrValue.float 1)])).1 (by decide),
    (axis_attribute_required (OpKernelInfo.mk [("axis", AttrValue.int (-1))])).2 (-1)
      (by decide)⟩

/-- C5: for both operators, construction fails exactly when the read of the
`axis` attribute from the kernel info is not OK; in particular kernel info
without an `axis` attribute yields no operator, so there is nothing
`ComputeInternal` could be invoked on. -/
theorem construction_fails_iff_axis_unreadable (info : OpKernelInfo) :
    (IsOK (LayerNormGrad.LayerNormGrad info) = false ↔ IsOK (info.GetAttr "axis") = false) ∧
      (IsOK (InvertibleLayerNormGrad.InvertibleLayerNormGrad info) = false ↔
        IsOK (info.GetAttr "axis") = false) ∧
      (info.attrs.lookup "axis" = none →
        (∀ op : LayerNormGrad, LayerNormGrad.LayerNormGrad info ≠ Except.ok op) ∧
        (∀ op : InvertibleLayerNormGrad,
          InvertibleLayerNormGrad.InvertibleLayerNormGrad info ≠ Except.ok op)) := by
  refine ⟨?_, ?_, ?_⟩
  · unfold LayerNormGrad.LayerNormGrad
    cases info.GetAttr "axis" <;> simp [IsOK]
  · unfold InvertibleLayerNormGrad.InvertibleLayerNormGrad
    cases info.GetAttr "axis" <;> simp [IsOK]
  · intro h
    constructor
    · intro op hop
      have hbad : IsOK (LayerNormGrad.LayerNormGrad info) = false := by
        simp only [LayerNormGrad.LayerNormGrad, OpKernelInfo.GetAttr, h, IsOK]
      rw [hop] at hbad
      simp [IsOK] at hbad
    · intro op hop
      have hbad : IsOK (InvertibleLayerNormGrad.InvertibleLayerNormGrad info) = false := by
        simp only [InvertibleLayerNormGrad.InvertibleLayerNormGrad, OpKernelInfo.GetAttr, h, IsOK]
      rw [hop] at hbad
      simp [IsOK] at hbad

theorem construction_fails_iff_axis_unreadable_witness :
    (∀ op : LayerNormGrad,
        LayerNormGrad.LayerNormGrad (OpKernelInfo.mk [("epsilon", AttrValue.float 1)]) ≠
          Except.ok op) ∧
      (∀ op : InvertibleLayerNormGrad,
        InvertibleLayerNormGrad.InvertibleLayerNormGrad
            (OpKernelInfo.mk [("epsilon", AttrValue.float 1)]) ≠
          Except.ok op) :=
  (construction_fails_iff_axis_unreadable
    (OpKernelInfo.mk [("epsilon", AttrValue.float 1)])).2.2 (by decide)

/-! ## Derived extents, outputs and scratch buffers -/

theorem list_prod_eq_prod_range (l : List Nat) :
    l.prod = ∏ i in Finset.range l.length, l.getD i 1 := by
  induction l with
  | nil => simp
  | cons x xs ih =>
    rw [List.prod_cons, List.length_cons, Finset.prod_range_succ', ih, Nat.mul_comm]
    simp

theorem sizeToDimension_eq_prod (s : TensorShape) (k : Nat) (hk : k ≤ s.NumDimensions) :
    s.SizeToDimension k = ∏ i in Finset.range k, s.dims.getD i 1 := by
  have hk2 : k ≤ s.dims.length := hk
  unfold TensorShape.SizeToDimension
  rw [list_prod_eq_prod_range, List.length_take, Nat.min_eq_left hk2]
  apply Finset.prod_congr rfl
  intro i hi
  have hi2 : i < k := Finset.mem_range.mp hi
  simp only [List.getD_eq_getElem?_getD, List.getElem?_take, hi2, if_true]

theorem sizeFromDimension_eq_prod (s : TensorShape) (k : Nat) :
    s.SizeFromDimension k = ∏ i in Finset.Ico k s.NumDimensions, s.dims.getD i 1 := by
  unfold TensorShape.SizeFromDimension TensorShape.NumDimensions
  rw [list_prod_eq_prod_range, List.length_drop, Finset.prod_Ico_eq_prod_range]
  apply Finset.prod_congr rfl
  intro i _
  simp only [List.getD_eq_getElem?_getD, List.getElem?_drop]

theorem sizeTo_mul_sizeFrom (s : TensorShape) (k : Nat) :
    s.SizeToDimension k * s.SizeFromDimension k = s.Size := by
  unfold TensorShape.SizeToDimension TensorShape.SizeFromDimension TensorShape.Size
  rw [← List.prod_append, List.take_append_drop]

/-- C7: for a configured axis that resolves to position `k` below the rank
`r` of the tensor at input position 1, with `n1` the product of the extents
`d_0 .. d_(k-1)` and `n2` the product of `d_k .. d_(r-1)`: `n1 * n2` is the
element count of that tensor; when `n2` is 1 both operators stop at the `n2`
check; otherwise both operators hand exactly these `n1` and `n2` to the
kernel. -/
theorem extents_are_axis_products (ctx : OpKernelContext) (axis_ : Int) (k : Nat)
    (hk : k < ctx.input1.Shape.NumDimensions)
    (hax : axis_ = (k : Int) ∨ axis_ = (k : Int) - ctx.input1.Shape.NumDimensions) :
    (∏ i in Finset.range k, ctx.input1.Shape.dims.getD i 1) *
        (∏ i in Finset.Ico k ctx.input1.Shape.NumDimensions, ctx.input1.Shape.dims.getD i 1) =
        ctx.input1.Shape.Size ∧
      ((∏ i in Finset.Ico k ctx.input1.Shape.NumDimensions, ctx.input1.Shape.dims.getD i 1) = 1 →
        (LayerNormGrad.ComputeInternal (LayerNormGrad.mk axis_) ctx).status =
            Status.Failed "n2 should not be 1" ∧
          (InvertibleLayerNormGrad.ComputeInternal (InvertibleLayerNormGrad.mk axis_) ctx).status =
            Status.Failed "n2 should not be 1") ∧
      ((∏ i in Finset.Ico k ctx.input1.Shape.NumDimensions, ctx.input1.Shape.dims.getD i 1) ≠ 1 →
        ∃ a b : KernelArgs,
          launchOf (LayerNormGrad.ComputeInternal (LayerNormGrad.mk axis_) ctx).trace = some a ∧
          launchOf (InvertibleLayerNormGrad.ComputeInternal
            (InvertibleLayerNormGrad.mk axis_) ctx).trace = some b ∧
          a.n1 = ∏ i in Finset.range k, ctx.input1.Shape.dims.getD i 1 ∧
          a.n2 = ∏ i in Finset.Ico k ctx.input1.Shape.NumDimensions,
            ctx.input1.Shape.dims.getD i 1 ∧
          b.n1 = a.n1 ∧ b.n2 = a.n2) := by
  have hres := handleNegativeAxis_resolved axis_ _ k hk hax
  have h1 := sizeToDimension_eq_prod ctx.input1.Shape k (Nat.le_of_lt hk)
  have h2 := sizeFromDimension_eq_prod ctx.input1.Shape k
  rw [standard_run_of_resolved axis_ ctx k hres, invertible_run_of_resolved axis_ ctx k hres]
  rw [← h1, ← h2]
  refine ⟨sizeTo_mul_sizeFrom _ k, ?_, ?_⟩
  · intro hone
    simp only [if_pos hone, and_self]
  · intro hne
    simp only [if_neg hne, launchOf]
    exact ⟨_, _, rfl, rfl, rfl, rfl, rfl, rfl⟩

theorem extents_are_axis_products_witness :
    ∃ a b : KernelArgs,
      launchOf (LayerNormGrad.ComputeInternal (LayerNormGrad.mk (-2))
        (OpKernelContext.mk ⟨⟨[2, 3, 4]⟩, []⟩ ⟨⟨[2, 3, 4]⟩, []⟩ ⟨⟨[3, 4]⟩, []⟩
          ⟨⟨[2, 1, 1]⟩, []⟩ ⟨⟨[2, 1, 1]⟩, []⟩)).trace = some a ∧
      launchOf (InvertibleLayerNormGrad.ComputeInternal (InvertibleLayerNormGrad.mk (-2))
        (OpKernelContext.mk ⟨⟨[2, 3, 4]⟩, []⟩ ⟨⟨[2, 3, 4]⟩, []⟩ ⟨⟨[3, 4]⟩, []⟩
          ⟨⟨[2, 1, 1]⟩, []⟩ ⟨⟨[2, 1, 1]⟩, []⟩)).trace = some b ∧
      a.n1 = ∏ i in Finset.range 1, [2, 3, 4].getD i 1 ∧
      a.n2 = ∏ i in Finset.Ico 1 3, [2, 3, 4].getD i 1 ∧
      b.n1 = a.n1 ∧ b.n2 = a.n2 :=
  (extents_are_axis_products
    (OpKernelContext.mk ⟨⟨[2, 3, 4]⟩, []⟩ ⟨⟨[2, 3, 4]⟩, []⟩ ⟨⟨[3, 4]⟩, []⟩
      ⟨⟨[2, 1, 1]⟩, []⟩ ⟨⟨[2, 1, 1]⟩, []⟩)
    (-2) 1 (by decide) (Or.inr (by decide))).2.2 (by decide)

/-- A Standard run that returns OK resolved its axis, passed the `n2` check
and produced the full trace. -/
theorem standard_run_ok (axis_ : Int) (ctx : OpKernelContext)
    (hok : (LayerNormGrad.ComputeInternal (LayerNormGrad.mk axis_) ctx).status = Status.OK) :
    ∃ k : Nat, k < ctx.input1.Shape.NumDimensions ∧
      ctx.input1.Shape.SizeFromDimension k ≠ 1 ∧
      (LayerNormGrad.ComputeInternal (LayerNormGrad.mk axis_) ctx).trace =
        [Event.Output 0 ctx.input1.Shape,
         Event.Output 1 ctx.input2.Shape,
         Event.Output 2 ctx.input2.Shape,
         Event.GetScratchBuffer ElemType.U
             (toSizeT (wrapInt64 (((16 : Nat) : Int) * (ctx.input1.Shape.SizeFromDimension k : Int)))),
         Event.GetScratchBuffer ElemType.U
             (toSizeT (wrapInt64 (((16 : Nat) : Int) * (ctx.input1.Shape.SizeFromDimension k : Int)))),
         Event.HostLayerNormGradient
           (KernelArgs.mk ctx.input0.data (some ctx.input1.data) none
             ctx.input2.data none (some ctx.input3.data) ctx.input4.data
             (ctx.input1.Shape.SizeToDimension k) (ctx.input1.Shape.SizeFromDimension k)
             0 1 2 0 1 16)] := by
  rcases handleNegativeAxis_cases axis_ ctx.input1.Shape.NumDimensions with ⟨k, hk, hres⟩ | hrej
  · rw [standard_run_of_resolved axis_ ctx k hres] at hok ⊢
    by_cases hone : ctx.input1.Shape.SizeFromDimension k = 1
    · rw [if_pos hone] at hok
      cases hok
    · rw [if_neg hone]
      exact ⟨k, hk, hone, rfl⟩
  · rw [standard_run_of_rejected axis_ ctx _ hrej] at hok
    cases hok

/-- An Invertible run that returns OK resolved its axis, passed the `n2`
check and produced the full trace. -/
theorem invertible_run_ok (axis_ : Int) (ctx : OpKernelContext)
    (hok : (InvertibleLayerNormGrad.ComputeInternal (InvertibleLayerNormGrad.mk axis_) ctx).status =
      Status.OK) :
    ∃ k : Nat, k < ctx.input1.Shape.NumDimensions ∧
      ctx.input1.Shape.SizeFromDimension k ≠ 1 ∧
      (InvertibleLayerNormGrad.ComputeInternal (InvertibleLayerNormGrad.mk axis_) ctx).trace =
        [Event.Output 0 ctx.input1.Shape,
         Event.Output 1 ctx.input2.Shape,
         Event.Output 2 ctx.input2.Shape,
         Event.GetScratchBuffer ElemType.U
             (toSizeT (wrapInt64 (((16 : Nat) : Int) * (ctx.input1.Shape.SizeFromDimension k : Int)))),
         Event.GetScratchBuffer ElemType.U
             (toSizeT (wrapInt64 (((16 : Nat) : Int) * (ctx.input1.Shape.SizeFromDimension k : Int)))),
         Event.HostLayerNormGradient
           (KernelArgs.mk ctx.input0.data none (some ctx.input1.data)
             ctx.input2.data (some ctx.input3.data) none ctx.input4.data
             (ctx.input1.Shape.SizeToDimension k) (ctx.input1.Shape.SizeFromDimension k)
             0 1 2 0 1 16)] := by
  rcases handleNegativeAxis_cases axis_ ctx.input1.Shape.NumDimensions with ⟨k, hk, hres⟩ | hrej
  · rw [invertible_run_of_resolved axis_ ctx k hres] at hok ⊢
    by_cases hone : ctx.input1.Shape.SizeFromDimension k = 1
    · rw [if_pos hone] at hok
      cases hok
    · rw [if_neg hone]
      exact ⟨k, hk, hone, rfl⟩
  · rw [invertible_run_of_rejected axis_ ctx _ hrej] at hok
    cases hok

/-- C8, the claim as stated fails: on a 2 x 3 tensor with axis 1 (so `n2` is
3) and a scale tensor of shape (5), both operators pass validation and
request `scale_grad` and `bias_grad` with shape (5), which has 5 elements,
not 3. -/
theorem parameter_gradient_shape_counterexample :
    (LayerNormGrad.ComputeInternal (LayerNormGrad.mk 1)
        (OpKernelContext.mk ⟨⟨[2, 3]⟩, [1, 2, 3, 4, 5, 6]⟩ ⟨⟨[2, 3]⟩, [1, 2, 3, 4, 5, 6]⟩
          ⟨⟨[5]⟩, [1, 1, 1, 1, 1]⟩ ⟨⟨[2]⟩, [2, 5]⟩ ⟨⟨[2]⟩, [1, 1]⟩)).status = Status.OK ∧
      (launchOf (LayerNormGrad.ComputeInternal (LayerNormGrad.mk 1)
        (OpKernelContext.mk ⟨⟨[2, 3]⟩, [1, 2, 3, 4, 5, 6]⟩ ⟨⟨[2, 3]⟩, [1, 2, 3, 4, 5, 6]⟩
          ⟨⟨[5]⟩, [1, 1, 1, 1, 1]⟩ ⟨⟨[2]⟩, [2, 5]⟩ ⟨⟨[2]⟩, [1, 1]⟩)).trace).map
        (fun a => a.n2) = some 3 ∧
      outputShapes 1 (LayerNormGrad.ComputeInternal (LayerNormGrad.mk 1)
        (OpKernelContext.mk ⟨⟨[2, 3]⟩, [1, 2, 3, 4, 5, 6]⟩ ⟨⟨[2, 3]⟩, [1, 2, 3, 4, 5, 6]⟩
          ⟨⟨[5]⟩, [1, 1, 1, 1, 1]⟩ ⟨⟨[2]⟩, [2, 5]⟩ ⟨⟨[2]⟩, [1, 1]⟩)).trace =
        [TensorShape.mk [5]] ∧
      outputShapes 2 (LayerNormGrad.ComputeInternal (LayerNormGrad.mk 1)
        (OpKernelContext.mk ⟨⟨[2, 3]⟩, [1, 2, 3, 4, 5, 6]⟩ ⟨⟨[2, 3]⟩, [1, 2, 3, 4, 5, 6]⟩
          ⟨⟨[5]⟩, [1, 1, 1, 1, 1]⟩ ⟨⟨[2]⟩, [2, 5]⟩ ⟨⟨[2]⟩, [1, 1]⟩)).trace =
        [TensorShape.mk [5]] ∧
      (InvertibleLayerNormGrad.ComputeInternal (InvertibleLayerNormGrad.mk 1)
        (OpKernelContext.mk ⟨⟨[2, 3]⟩, [1, 2, 3, 4, 5, 6]⟩ ⟨⟨[2, 3]⟩, [1, 2, 3, 4, 5, 6]⟩
          ⟨⟨[5]⟩, [1, 1, 1, 1, 1]⟩ ⟨⟨[3]⟩, [0, 0, 0]⟩ ⟨⟨[2]⟩, [1, 1]⟩)).status = Status.OK ∧
      outputShapes 1 (InvertibleLayerNormGrad.ComputeInternal (InvertibleLayerNormGrad.mk 1)
        (OpKernelContext.mk ⟨⟨[2, 3]⟩, [1, 2, 3, 4, 5, 6]⟩ ⟨⟨[2, 3]⟩, [1, 2, 3, 4, 5, 6]⟩
          ⟨⟨[5]⟩, [1, 1, 1, 1, 1]⟩ ⟨⟨[3]⟩, [0, 0, 0]⟩ ⟨⟨[2]⟩, [1, 1]⟩)).trace =
        [TensorShape.mk [5]] ∧
      (TensorShape.mk [5]).Size ≠ 3 ∧ TensorShape.mk [5] ≠ TensorShape.mk [3] := by
  decide

/-- C8, amended: for every run of either operator that returns OK, exactly
one output is requested at each of the positions 0, 1 and 2; `X_grad` has the
shape of the tensor at input position 1, and `scale_grad` and `bias_grad`
each have the shape of the supplied scale tensor (input position 2), whatever
the shape of the tensor at input position 3. -/
theorem output_shapes (ctx : OpKernelContext) (axis_ : Int) :
    ((LayerNormGrad.ComputeInternal (LayerNormGrad.mk axis_) ctx).status = Status.OK →
        outputShapes 0 (LayerNormGrad.ComputeInternal (LayerNormGrad.mk axis_) ctx).trace =
          [ctx.input1.Shape] ∧
        outputShapes 1 (LayerNormGrad.ComputeInternal (LayerNormGrad.mk axis_) ctx).trace =
          [ctx.input2.Shape] ∧
        outputShapes 2 (LayerNormGrad.ComputeInternal (LayerNormGrad.mk axis_) ctx).trace =
          [ctx.input2.Shape]) ∧
      ((InvertibleLayerNormGrad.ComputeInternal (InvertibleLayerNormGrad.mk axis_) ctx).status =
          Status.OK →
        outputShapes 0
            (InvertibleLayerNormGrad.ComputeInternal (InvertibleLayerNormGrad.mk axis_) ctx).trace =
          [ctx.input1.Shape] ∧
        outputShapes 1
            (InvertibleLayerNormGrad.ComputeInternal (InvertibleLayerNormGrad.mk axis_) ctx).trace =
          [ctx.input2.Shape] ∧
        outputShapes 2
            (InvertibleLayerNormGrad.ComputeInternal (InvertibleLayerNormGrad.mk axis_) ctx).trace =
          [ctx.input2.Shape]) := by
  constructor
  · intro hok
    obtain ⟨k, _, _, htrace⟩ := standard_run_ok axis_ ctx hok
    rw [htrace]
    simp [outputShapes]
  · intro hok
    obtain ⟨k, _, _, htrace⟩ := invertible_run_ok axis_ ctx hok
    rw [htrace]
    simp [outputShapes]

theorem output_shapes_witness :
    (outputShapes 0 (LayerNormGrad.ComputeInternal (LayerNormGrad.mk 1)
        (OpKernelContext.mk ⟨⟨[2, 3, 4]⟩, []⟩ ⟨⟨[2, 3, 4]⟩, []⟩ ⟨⟨[3, 4]⟩, []⟩
          ⟨⟨[2, 1, 1]⟩, []⟩ ⟨⟨[2, 1, 1]⟩, []⟩)).trace = [TensorShape.mk [2, 3, 4]] ∧
      outputShapes 1 (LayerNormGrad.ComputeInternal (LayerNormGrad.mk 1)
        (OpKernelContext.mk ⟨⟨[2, 3, 4]⟩, []⟩ ⟨⟨[2, 3, 4]⟩, []⟩ ⟨⟨[3, 4]⟩, []⟩
          ⟨⟨[2, 1, 1]⟩, []⟩ ⟨⟨[2, 1, 1]⟩, []⟩)).trace = [TensorShape.mk [3, 4]] ∧
      outputShapes 2 (LayerNormGrad.ComputeInternal (LayerNormGrad.mk 1)
        (OpKernelContext.mk ⟨⟨[2, 3, 4]⟩, []⟩ ⟨⟨[2, 3, 4]⟩, []⟩ ⟨⟨[3, 4]⟩, []⟩
          ⟨⟨[2, 1, 1]⟩, []⟩ ⟨⟨[2, 1, 1]⟩, []⟩)).trace = [TensorShape.mk [3, 4]]) ∧
      (outputShapes 0 (InvertibleLayerNormGrad.ComputeInternal (InvertibleLayerNormGrad.mk 1)
        (OpKernelContext.mk ⟨⟨[2, 3, 4]⟩, []⟩ ⟨⟨[2, 3, 4]⟩, []⟩ ⟨⟨[3, 4]⟩, []⟩
          ⟨⟨[2, 1, 1]⟩, []⟩ ⟨⟨[2, 1, 1]⟩, []⟩)).trace = [TensorShape.mk [2, 3, 4]] ∧
      outputShapes 1 (InvertibleLayerNormGrad.ComputeInternal (InvertibleLayerNormGrad.mk 1)
        (OpKernelContext.mk ⟨⟨[2, 3, 4]⟩, []⟩ ⟨⟨[2, 3, 4]⟩, []⟩ ⟨⟨[3, 4]⟩, []⟩
          ⟨⟨[2, 1, 1]⟩, []⟩ ⟨⟨[2, 1, 1]⟩, []⟩)).trace = [TensorShape.mk [3, 4]] ∧
      outputShapes 2 (InvertibleLayerNormGrad.ComputeInternal (InvertibleLayerNormGrad.mk 1)
        (OpKernelContext.mk ⟨⟨[2, 3, 4]⟩, []⟩ ⟨⟨[2, 3, 4]⟩, []⟩ ⟨⟨[3, 4]⟩, []⟩
          ⟨⟨[2, 1, 1]⟩, []⟩ ⟨⟨[2, 1, 1]⟩, []⟩)).trace = [TensorShape.mk [3, 4]]) :=
  ⟨(output_shapes
      (OpKernelContext.mk ⟨⟨[2, 3, 4]⟩, []⟩ ⟨⟨[2, 3, 4]⟩, []⟩ ⟨⟨[3, 4]⟩, []⟩
        ⟨⟨[2, 1, 1]⟩, []⟩ ⟨⟨[2, 1, 1]⟩, []⟩) 1).1 (by decide),
    (output_shapes
      (OpKernelContext.mk ⟨⟨[2, 3, 4]⟩, []⟩ ⟨⟨[2, 3, 4]⟩, []⟩ ⟨⟨[3, 4]⟩, []⟩
        ⟨⟨[2, 1, 1]⟩, []⟩ ⟨⟨[2, 1, 1]⟩, []⟩) 1).2 (by decide)⟩

/-- C9: the Invertible run is the Standard run under the exchange of `X`
with `Y` and of `mean` with `bias`: same status, and the same trace up to that
exchange in the launch. In a Standard launch input 1 is `X` and input 3 is
`mean`, with `Y` and `bias` null; in an Invertible launch input 1 is `Y` and
input 3 is `bias`, with `X` and `mean` null; and both launches carry input 0
as upstream gradient, input 2 as scale, input 4 as inverse deviation, the
same `n1`, `n2`, output buffers, partial buffers and `part_size`. -/
theorem variants_differ_by_exchange (ctx : OpKernelContext) (axis_ : Int) :
    (InvertibleLayerNormGrad.ComputeInternal (InvertibleLayerNormGrad.mk axis_) ctx).status =
        (LayerNormGrad.ComputeInternal (LayerNormGrad.mk axis_) ctx).status ∧
      (InvertibleLayerNormGrad.ComputeInternal (InvertibleLayerNormGrad.mk axis_) ctx).trace =
        (LayerNormGrad.ComputeInternal (LayerNormGrad.mk axis_) ctx).trace.map Event.exchange ∧
      (∀ a : KernelArgs,
        launchOf (LayerNormGrad.ComputeInternal (LayerNormGrad.mk axis_) ctx).trace = some a →
          a.X_data = some ctx.input1.data ∧ a.mean_data = some ctx.input3.data ∧
          a.Y_data = none ∧ a.bias_data = none ∧
          a.Y_grad_data = ctx.input0.data ∧ a.scale_data = ctx.input2.data ∧
          a.inv_std_var_data = ctx.input4.data) ∧
      (∀ b : KernelArgs,
        launchOf (InvertibleLayerNormGrad.ComputeInternal
            (InvertibleLayerNormGrad.mk axis_) ctx).trace = some b →
          b.Y_data = some ctx.input1.data ∧ b.bias_data = some ctx.input3.data ∧
          b.X_data = none ∧ b.mean_data = none ∧
          b.Y_grad_data = ctx.input0.data ∧ b.scale_data = ctx.input2.data ∧
          b.inv_std_var_data = ctx.input4.data ∧
          ∃ a : KernelArgs,
            launchOf (LayerNormGrad.ComputeInternal (LayerNormGrad.mk axis_) ctx).trace = some a ∧
            b.n1 = a.n1 ∧ b.n2 = a.n2 ∧ b.X_grad_data = a.X_grad_data ∧
            b.scale_grad_data = a.scale_grad_data ∧ b.bias_grad_data = a.bias_grad_data ∧
            b.part_grad_gamma = a.part_grad_gamma ∧ b.part_grad_beta = a.part_grad_beta ∧
            b.part_size = a.part_size) := by
  rcases handleNegativeAxis_cases axis_ ctx.input1.Shape.NumDimensions with ⟨k, _, hres⟩ | hrej
  · rw [standard_run_of_resolved axis_ ctx k hres, invertible_run_of_resolved axis_ ctx k hres]
    by_cases hone : ctx.input1.Shape.SizeFromDimension k = 1
    · simp [if_pos hone, launchOf]
    · simp only [if_neg hone, launchOf, List.map, Event.exchange, KernelArgs.exchange,
        Option.some.injEq, true_and]
      refine ⟨?_, ?_⟩
      · intro a ha
        subst ha
        exact ⟨rfl, rfl, rfl, rfl, rfl, rfl, rfl⟩
      · intro b hb
        subst hb
        exact ⟨rfl, rfl, rfl, rfl, rfl, rfl, rfl, _, rfl, rfl, rfl, rfl, rfl, rfl, rfl, rfl, rfl⟩
  · rw [standard_run_of_rejected axis_ ctx _ hrej, invertible_run_of_rejected axis_ ctx _ hrej]
    simp [launchOf]

theorem variants_differ_by_exchange_witness :
    (InvertibleLayerNormGrad.ComputeInternal (InvertibleLayerNormGrad.mk 1)
      (OpKernelContext.mk ⟨⟨[2, 3]⟩, [1, 2, 3, 4, 5, 6]⟩ ⟨⟨[2, 3]⟩, [1, 2, 3, 4, 5, 7]⟩
        ⟨⟨[3]⟩, [1, 1, 1]⟩ ⟨⟨[2]⟩, [2, 5]⟩ ⟨⟨[2]⟩, [1, 2]⟩)).status =
      (LayerNormGrad.ComputeInternal (LayerNormGrad.mk 1)
      (OpKernelContext.mk ⟨⟨[2, 3]⟩, [1, 2, 3, 4, 5, 6]⟩ ⟨⟨[2, 3]⟩, [1, 2, 3, 4, 5, 7]⟩
        ⟨⟨[3]⟩, [1, 1, 1]⟩ ⟨⟨[2]⟩, [2, 5]⟩ ⟨⟨[2]⟩, [1, 2]⟩)).status ∧
    ((KernelArgs.mk [1, 2, 3, 4, 5, 6] (some [1, 2, 3, 4, 5, 7]) none [1, 1, 1] none
        (some [2, 5]) [1, 2] 2 3 0 1 2 0 1 16).X_data = some [1, 2, 3, 4, 5, 7] ∧
      (KernelArgs.mk [1, 2, 3, 4, 5, 6] (some [1, 2, 3, 4, 5, 7]) none [1, 1, 1] none
        (some [2, 5]) [1, 2] 2 3 0 1 2 0 1 16).mean_data = some [2, 5] ∧
      (KernelArgs.mk [1, 2, 3, 4, 5, 6] (some [1, 2, 3, 4, 5, 7]) none [1, 1, 1] none
        (some [2, 5]) [1, 2] 2 3 0 1 2 0 1 16).Y_data = none ∧
      (KernelArgs.mk [1, 2, 3, 4, 5, 6] (some [1, 2, 3, 4, 5, 7]) none [1, 1, 1] none
        (some [2, 5]) [1, 2] 2 3 0 1 2 0 1 16).bias_data = none ∧
      (KernelArgs.mk [1, 2, 3, 4, 5, 6] (some [1, 2, 3, 4, 5, 7]) none [1, 1, 1] none
        (some [2, 5]) [1, 2] 2 3 0 1 2 0 1 16).Y_grad_data = [1, 2, 3, 4, 5, 6] ∧
      (KernelArgs.mk [1, 2, 3, 4, 5, 6] (some [1, 2, 3, 4, 5, 7]) none [1, 1, 1] none
        (some [2, 5]) [1, 2] 2 3 0 1 2 0 1 16).scale_data = [1, 1, 1] ∧
      (KernelArgs.mk [1, 2, 3, 4, 5, 6] (some [1, 2, 3, 4, 5, 7]) none [1, 1, 1] none
        (some [2, 5]) [1, 2] 2 3 0 1 2 0 1 16).inv_std_var_data = [1, 2]) :=
  ⟨(variants_differ_by_exchange
      (OpKernelContext.mk ⟨⟨[2, 3]⟩, [1, 2, 3, 4, 5, 6]⟩ ⟨⟨[2, 3]⟩, [1, 2, 3, 4, 5, 7]⟩
        ⟨⟨[3]⟩, [1, 1, 1]⟩ ⟨⟨[2]⟩, [2, 5]⟩ ⟨⟨[2]⟩, [1, 2]⟩) 1).1,
    (variants_differ_by_exchange
      (OpKernelContext.mk ⟨⟨[2, 3]⟩, [1, 2, 3, 4, 5, 6]⟩ ⟨⟨[2, 3]⟩, [1, 2, 3, 4, 5, 7]⟩
        ⟨⟨[3]⟩, [1, 1, 1]⟩ ⟨⟨[2]⟩, [2, 5]⟩ ⟨⟨[2]⟩, [1, 2]⟩) 1).2.2.1
      (KernelArgs.mk [1, 2, 3, 4, 5, 6] (some [1, 2, 3, 4, 5, 7]) none [1, 1, 1] none
        (some [2, 5]) [1, 2] 2 3 0 1 2 0 1 16)
      (by decide)⟩

theorem handleNegativeAxis_ok_position (axis_ : Int) (r k : Nat)
    (h : HandleNegativeAxis axis_ r = Except.ok (k : Int)) :
    k < r ∧ (axis_ = (k : Int) ∨ axis_ = (k : Int) - r) := by
  unfold HandleNegativeAxis at h
  by_cases hin : -(r : Int) ≤ axis_ ∧ axis_ ≤ (r : Int) - 1
  · rw [if_pos hin] at h
    by_cases hneg : axis_ < 0
    · rw [if_pos hneg] at h
      injection h with h
      omega
    · rw [if_neg hneg] at h
      injection h with h
      omega
  · rw [if_neg hin] at h
    cases h

/-- Below `2^59` columns the signed 64-bit product `16 * n2` does not wrap. -/
theorem scratch_count_exact (n : Nat) (h : n < 2 ^ 59) :
    toSizeT (wrapInt64 (((16 : Nat) : Int) * (n : Int))) = 16 * n := by
  unfold toSizeT wrapInt64
  norm_num at h ⊢
  omega

/-- C10, the claim as stated fails: on an empty tensor of shape
`(0, 2^60)` with axis 1 both operators pass validation with `n2 = 2^60`, and
the signed 64-bit product `16 * n2` wraps to 0, so each of the two scratch
requests is for 0 elements, not for `16 * n2`. -/
theorem partial_buffers_counterexample :
    (LayerNormGrad.ComputeInternal (LayerNormGrad.mk 1)
        (OpKernelContext.mk ⟨⟨[0, 1152921504606846976]⟩, []⟩ ⟨⟨[0, 1152921504606846976]⟩, []⟩ ⟨⟨[1]⟩, [1]⟩
          ⟨⟨[0]⟩, []⟩ ⟨⟨[0]⟩, []⟩)).status = Status.OK ∧
      (launchOf (LayerNormGrad.ComputeInternal (LayerNormGrad.mk 1)
        (OpKernelContext.mk ⟨⟨[0, 1152921504606846976]⟩, []⟩ ⟨⟨[0, 1152921504606846976]⟩, []⟩ ⟨⟨[1]⟩, [1]⟩
          ⟨⟨[0]⟩, []⟩ ⟨⟨[0]⟩, []⟩)).trace).map (fun a => (a.n2, a.part_size)) =
        some (1152921504606846976, 16) ∧
      scratchBuffers (LayerNormGrad.ComputeInternal (LayerNormGrad.mk 1)
        (OpKernelContext.mk ⟨⟨[0, 1152921504606846976]⟩, []⟩ ⟨⟨[0, 1152921504606846976]⟩, []⟩ ⟨⟨[1]⟩, [1]⟩
          ⟨⟨[0]⟩, []⟩ ⟨⟨[0]⟩, []⟩)).trace = [(ElemType.U, 0), (ElemType.U, 0)] ∧
      (InvertibleLayerNormGrad.ComputeInternal (InvertibleLayerNormGrad.mk 1)
        (OpKernelContext.mk ⟨⟨[0, 1152921504606846976]⟩, []⟩ ⟨⟨[0, 1152921504606846976]⟩, []⟩ ⟨⟨[1]⟩, [1]⟩
          ⟨⟨[1]⟩, [0]⟩ ⟨⟨[0]⟩, []⟩)).status = Status.OK ∧
      scratchBuffers (InvertibleLayerNormGrad.ComputeInternal (InvertibleLayerNormGrad.mk 1)
        (OpKernelContext.mk ⟨⟨[0, 1152921504606846976]⟩, []⟩ ⟨⟨[0, 1152921504606846976]⟩, []⟩ ⟨⟨[1]⟩, [1]⟩
          ⟨⟨[1]⟩, [0]⟩ ⟨⟨[0]⟩, []⟩)).trace = [(ElemType.U, 0), (ElemType.U, 0)] ∧
      (0 : Nat) ≠ 16 * 1152921504606846976 := by
  decide

/-- C10, amended: for every run of either operator that returns OK, the
kernel is handed the partition count 16 and the column count `n2`, the
product of the extents of the tensor at input position 1 from the resolved
axis onward; and whenever `n2` is below `2^59` (so that `16 * n2` fits the
signed 64-bit product), exactly two scratch buffers are obtained, each of
statistics type `U` and of exactly `16 * n2` elements, with that same 16;
`n1` plays no part. -/
theorem partial_buffers (ctx : OpKernelContext) (axis_ : Int) :
    ((LayerNormGrad.ComputeInternal (LayerNormGrad.mk axis_) ctx).status = Status.OK →
        ∃ (a : KernelArgs) (k : Nat),
          k < ctx.input1.Shape.NumDimensions ∧
          (axis_ = (k : Int) ∨ axis_ = (k : Int) - ctx.input1.Shape.NumDimensions) ∧
          launchOf (LayerNormGrad.ComputeInternal (LayerNormGrad.mk axis_) ctx).trace = some a ∧
          a.part_size = 16 ∧
          a.n2 = (ctx.input1.Shape.dims.drop k).prod ∧
          (a.n2 < 2 ^ 59 →
            scratchBuffers (LayerNormGrad.ComputeInternal (LayerNormGrad.mk axis_) ctx).trace =
              [(ElemType.U, a.part_size * a.n2), (ElemType.U, a.part_size * a.n2)])) ∧
      ((InvertibleLayerNormGrad.ComputeInternal (InvertibleLayerNormGrad.mk axis_) ctx).status = Status.OK →
        ∃ (a : KernelArgs) (k : Nat),
          k < ctx.input1.Shape.NumDimensions ∧
          (axis_ = (k : Int) ∨ axis_ = (k : Int) - ctx.input1.Shape.NumDimensions) ∧
          launchOf (InvertibleLayerNormGrad.ComputeInternal (InvertibleLayerNormGrad.mk axis_) ctx).trace = some a ∧
          a.part_size = 16 ∧
          a.n2 = (ctx.input1.Shape.dims.drop k).prod ∧
          (a.n2 < 2 ^ 59 →
            scratchBuffers (InvertibleLayerNormGrad.ComputeInternal (InvertibleLayerNormGrad.mk axis_) ctx).trace =
              [(ElemType.U, a.part_size * a.n2), (ElemType.U, a.part_size * a.n2)])) := by
  constructor
  · intro hok
    rcases handleNegativeAxis_cases axis_ ctx.input1.Shape.NumDimensions with ⟨k, _, hres⟩ | hrej
    · obtain ⟨hk, hax⟩ := handleNegativeAxis_ok_position axis_ _ k hres
      rw [standard_run_of_resolved axis_ ctx k hres] at hok ⊢
      by_cases hone : ctx.input1.Shape.SizeFromDimension k = 1
      · rw [if_pos hone] at hok
        cases hok
      · rw [if_neg hone]
        refine ⟨_, k, hk, hax, rfl, rfl, rfl, ?_⟩
        intro hsmall
        simp only [scratchBuffers]
        rw [scratch_count_exact _ hsmall]
    · rw [standard_run_of_rejected axis_ ctx _ hrej] at hok
      cases hok
  · intro hok
    rcases handleNegativeAxis_cases axis_ ctx.input1.Shape.NumDimensions with ⟨k, _, hres⟩ | hrej
    · obtain ⟨hk, hax⟩ := handleNegativeAxis_ok_position axis_ _ k hres
      rw [invertible_run_of_resolved axis_ ctx k hres] at hok ⊢
      by_cases hone : ctx.input1.Shape.SizeFromDimension k = 1
      · rw [if_pos hone] at hok
        cases hok
      · rw [if_neg hone]
        refine ⟨_, k, hk, hax, rfl, rfl, rfl, ?_⟩
        intro hsmall
        simp only [scratchBuffers]
        rw [scratch_count_exact _ hsmall]
    · rw [invertible_run_of_rejected axis_ ctx _ hrej] at hok
      cases hok

theorem partial_buffers_witness :
    (∃ (a : KernelArgs) (k : Nat),
        k < 2 ∧ ((1 : Int) = (k : Int) ∨ (1 : Int) = (k : Int) - (2 : Nat)) ∧
        launchOf (LayerNormGrad.ComputeInternal (LayerNormGrad.mk 1)
          (OpKernelContext.mk ⟨⟨[100, 3]⟩, []⟩ ⟨⟨[100, 3]⟩, []⟩ ⟨⟨[3]⟩, []⟩
          ⟨⟨[100]⟩, []⟩ ⟨⟨[100]⟩, []⟩)).trace = some a ∧
        a.part_size = 16 ∧
        a.n2 = ([100, 3].drop k).prod ∧
        scratchBuffers (LayerNormGrad.ComputeInternal (LayerNormGrad.mk 1)
          (OpKernelContext.mk ⟨⟨[100, 3]⟩, []⟩ ⟨⟨[100, 3]⟩, []⟩ ⟨⟨[3]⟩, []⟩
          ⟨⟨[100]⟩, []⟩ ⟨⟨[100]⟩, []⟩)).trace =
          [(ElemType.U, a.part_size * a.n2), (ElemType.U, a.part_size * a.n2)]) ∧
      (∃ (a : KernelArgs) (k : Nat),
        k < 2 ∧ ((1 : Int) = (k : Int) ∨ (1 : Int) = (k : Int) - (2 : Nat)) ∧
        launchOf (InvertibleLayerNormGrad.ComputeInternal (InvertibleLayerNormGrad.mk 1)
          (OpKernelContext.mk ⟨⟨[100, 3]⟩, []⟩ ⟨⟨[100, 3]⟩, []⟩ ⟨⟨[3]⟩, []⟩
          ⟨⟨[3]⟩, []⟩ ⟨⟨[100]⟩, []⟩)).trace = some a ∧
        a.part_size = 16 ∧
        a.n2 = ([100, 3].drop k).prod ∧
        scratchBuffers (InvertibleLayerNormGrad.ComputeInternal (InvertibleLayerNormGrad.mk 1)
          (OpKernelContext.mk ⟨⟨[100, 3]⟩, []⟩ ⟨⟨[100, 3]⟩, []⟩ ⟨⟨[3]⟩, []⟩
          ⟨⟨[3]⟩, []⟩ ⟨⟨[100]⟩, []⟩)).trace =
          [(ElemType.U, a.part_size * a.n2), (ElemType.U, a.part_size * a.n2)]) := by
  obtain ⟨a, k, hk, hax, hlaunch, hsize, hn2, hbuf⟩ :=
    (partial_buffers
      (OpKernelContext.mk ⟨⟨[100, 3]⟩, []⟩ ⟨⟨[100, 3]⟩, []⟩ ⟨⟨[3]⟩, []⟩
          ⟨⟨[100]⟩, []⟩ ⟨⟨[100]⟩, []⟩) 1).1 (by decide)
  obtain ⟨b, m, hm, hbx, hblaunch, hbsize, hbn2, hbbuf⟩ :=
    (partial_buffers
      (OpKernelContext.mk ⟨⟨[100, 3]⟩, []⟩ ⟨⟨[100, 3]⟩, []⟩ ⟨⟨[3]⟩, []⟩
          ⟨⟨[3]⟩, []⟩ ⟨⟨[100]⟩, []⟩) 1).2 (by decide)
  have hka : a.n2 < 2 ^ 59 := by
    have hk1 : k = 1 := by
      rcases hax with h | h
      · exact_mod_cast h.symm
      · exfalso
        have hk2 : k < 2 := hk
        have h2 : (1 : Int) = (k : Int) - 2 := h
        omega
    rw [hn2, hk1]
    decide
  have hkb : b.n2 < 2 ^ 59 := by
    have hm1 : m = 1 := by
      rcases hbx with h | h
      · exact_mod_cast h.symm
      · exfalso
        have hm2 : m < 2 := hm
        have h2 : (1 : Int) = (m : Int) - 2 := h
        omega
    rw [hbn2, hm1]
    decide
  exact ⟨⟨a, k, hk, hax, hlaunch, hsize, hn2, hbuf hka⟩,
    ⟨b, m, hm, hbx, hblaunch, hbsize, hbn2, hbbuf hkb⟩⟩

/-! ## The two-phase reduction -/

theorem list_sum_map_range (f : Nat → ℚ) (n : Nat) :
    ((List.range n).map f).sum = ∑ i in Finset.range n, f i := by
  induction n with
  | zero => simp
  | succ n ih =>
    rw [List.range_succ, List.map_append, List.sum_append, ih, Finset.sum_range_succ]
    simp

theorem cell_index_lt {P n2 p j : Nat} (hp : p < P) (hj : j < n2) : p * n2 + j < P * n2 := by
  have h1 : (p + 1) * n2 ≤ P * n2 := Nat.mul_le_mul_right n2 hp
  have h2 : (p + 1) * n2 = p * n2 + n2 := by ring
  omega

theorem cell_index_inj {n2 p q j k : Nat} (hj : j < n2) (hk : k < n2)
    (h : p * n2 + j = q * n2 + k) : p = q ∧ j = k := by
  have hpos : 0 < n2 := by omega
  have hp : (p * n2 + j) / n2 = p := by
    rw [Nat.mul_comm, Nat.mul_add_div hpos, Nat.div_eq_of_lt hj, Nat.add_zero]
  have hq : (q * n2 + k) / n2 = q := by
    rw [Nat.mul_comm, Nat.mul_add_div hpos, Nat.div_eq_of_lt hk, Nat.add_zero]
  have hpq : p = q := by rw [← hp, ← hq, h]
  subst hpq
  exact ⟨rfl, by omega⟩

theorem atomicAdd_length (buf : List ℚ) (n2 p j : Nat) (v : ℚ) :
    (atomicAdd buf n2 p j v).length = buf.length := by
  simp [atomicAdd]

theorem atomicAdd_getD (buf : List ℚ) (n2 p j : Nat) (v : ℚ) (c : Nat)
    (hin : p * n2 + j < buf.length) :
    (atomicAdd buf n2 p j v).getD c 0 =
      if c = p * n2 + j then buf.getD c 0 + v else buf.getD c 0 := by
  unfold atomicAdd
  by_cases hc : c = p * n2 + j
  · subst hc
    simp [List.getD_eq_getElem?_getD, List.getElem?_set, hin]
  · have hc2 : ¬ (p * n2 + j = c) := fun h => hc h.symm
    simp [List.getD_eq_getElem?_getD, List.getElem?_set, hc, hc2]

/-- Effect of the additions of one row on the cells of the array. -/
theorem row_accumulation (contribution : Nat → ℚ) (P n2 p : Nat) (hp : p < P) (m : Nat)
    (hm : m ≤ n2) (buf : List ℚ) (hlen : buf.length = P * n2) :
    ((List.range m).foldl (fun b j => atomicAdd b n2 p j (contribution j)) buf).length = P * n2 ∧
      ∀ q j : Nat, q < P → j < n2 →
        ((List.range m).foldl (fun b j => atomicAdd b n2 p j (contribution j)) buf).getD
            (q * n2 + j) 0 =
          buf.getD (q * n2 + j) 0 + (if q = p ∧ j < m then contribution j else 0) := by
  induction m with
  | zero =>
    refine ⟨by simpa using hlen, ?_⟩
    intro q j _ _
    simp
  | succ m ih =>
    obtain ⟨ihlen, ihval⟩ := ih (by omega)
    rw [List.range_succ, List.foldl_append]
    simp only [List.foldl_cons, List.foldl_nil]
    refine ⟨by rw [atomicAdd_length, ihlen], ?_⟩
    intro q j hq hj
    have hin : p * n2 + m < ((List.range m).foldl
        (fun b j => atomicAdd b n2 p j (contribution j)) buf).length := by
      rw [ihlen]
      exact cell_index_lt hp (by omega)
    rw [atomicAdd_getD _ _ _ _ _ _ hin, ihval q j hq hj]
    by_cases hcell : q * n2 + j = p * n2 + m
    · obtain ⟨hqp, hjm⟩ := cell_index_inj hj (by omega) hcell
      subst hqp
      subst hjm
      simp
    · rw [if_neg hcell]
      by_cases hqp : q = p
      · subst hqp
        have hjm : j ≠ m := fun h => hcell (by rw [h])
        have hiff : (j < m + 1) ↔ (j < m) := by omega
        simp [hiff]
      · simp [hqp]

/-- Effect of the accumulation phase on the cells of the array. -/
theorem partialAccumulation_cells (contribution : Nat → Nat → ℚ) (partition : Nat → Nat)
    (P n2 : Nat) (m : Nat) (hpart : ∀ i, i < m → partition i < P)
    (buf : List ℚ) (hlen : buf.length = P * n2) :
    (PartialAccumulation contribution partition m n2 buf).length = P * n2 ∧
      ∀ q j : Nat, q < P → j < n2 →
        (PartialAccumulation contribution partition m n2 buf).getD (q * n2 + j) 0 =
          buf.getD (q * n2 + j) 0 +
            ∑ i in Finset.range m, (if partition i = q then contribution i j else 0) := by
  induction m with
  | zero =>
    refine ⟨by simpa [PartialAccumulation] using hlen, ?_⟩
    intro q j _ _
    simp [PartialAccumulation]
  | succ m ih =>
    obtain ⟨ihlen, ihval⟩ := ih (fun i hi => hpart i (by omega))
    have hrow := row_accumulation (contribution m) P n2 (partition m) (hpart m (by omega)) n2
      (Nat.le_refl n2) (PartialAccumulation contribution partition m n2 buf) ihlen
    have hstep : PartialAccumulation contribution partition (m + 1) n2 buf =
        (List.range n2).foldl (fun b j => atomicAdd b n2 (partition m) j (contribution m j))
          (PartialAccumulation contribution partition m n2 buf) := by
      simp only [PartialAccumulation, List.range_succ, List.foldl_append, List.foldl_cons,
        List.foldl_nil]
    rw [hstep]
    refine ⟨hrow.1, ?_⟩
    intro q j hq hj
    rw [hrow.2 q j hq hj, ihval q j hq hj, Finset.sum_range_succ]
    have hcond : (q = partition m ∧ j < n2) ↔ (partition m = q) := by
      constructor
      · intro h
        exact h.1.symm
      · intro h
        exact ⟨h.symm, hj⟩
    simp only [hcond]
    ring

theorem partialReduction_getD (part : List ℚ) (P n2 j : Nat) (hj : j < n2) :
    (PartialReduction part P n2).getD j 0 =
      ∑ p in Finset.range P, part.getD (p * n2 + j) 0 := by
  unfold PartialReduction
  rw [List.getD_eq_getElem?_getD, List.getElem?_map, List.getElem?_range hj]
  simp only [Option.map_some', Option.getD_some]
  exact list_sum_map_range _ P

/-- The two phases together: summing the partition entries of a column gives
the sum of the contributions of all rows. -/
theorem two_phase_sum (contribution : Nat → Nat → ℚ) (partition : Nat → Nat)
    (P n1 n2 : Nat) (hpart : ∀ i, i < n1 → partition i < P) (j : Nat) (hj : j < n2) :
    (PartialReduction
        (PartialAccumulation contribution partition n1 n2 (List.replicate (P * n2) 0))
        P n2).getD j 0 =
      ∑ i in Finset.range n1, contribution i j := by
  have hcells := partialAccumulation_cells contribution partition P n2 n1 hpart
    (List.replicate (P * n2) 0) (by simp)
  rw [partialReduction_getD _ _ _ _ hj]
  have hcol : ∀ p ∈ Finset.range P,
      (PartialAccumulation contribution partition n1 n2 (List.replicate (P * n2) 0)).getD
          (p * n2 + j) 0 =
        ∑ i in Finset.range n1, (if partition i = p then contribution i j else 0) := by
    intro p hp
    have hpP : p < P := Finset.mem_range.mp hp
    rw [hcells.2 p j hpP hj]
    have hzero : (List.replicate (P * n2) (0 : ℚ)).getD (p * n2 + j) 0 = 0 := by
      simp [List.getD_eq_getElem?_getD, List.getElem?_replicate, cell_index_lt hpP hj]
    rw [hzero, zero_add]
  rw [Finset.sum_congr rfl hcol, Finset.sum_comm]
  apply Finset.sum_congr rfl
  intro i hi
  have hiP : partition i ∈ Finset.range P := Finset.mem_range.mpr (hpart i (Finset.mem_range.mp hi))
  rw [Finset.sum_ite_eq (Finset.range P) (partition i) (fun _ => contribution i j), if_pos hiP]

theorem launch_of_standard (ctx : OpKernelContext) (axis_ : Int) (a : KernelArgs)
    (h : launchOf (LayerNormGrad.ComputeInternal (LayerNormGrad.mk axis_) ctx).trace = some a) :
    a.part_size = 16 ∧ a.n2 ≠ 1 ∧ a.Y_grad_data = ctx.input0.data ∧
      a.X_data = some ctx.input1.data ∧ a.mean_data = some ctx.input3.data ∧
      a.inv_std_var_data = ctx.input4.data := by
  rcases handleNegativeAxis_cases axis_ ctx.input1.Shape.NumDimensions with ⟨k, _, hres⟩ | hrej
  · rw [standard_run_of_resolved axis_ ctx k hres] at h
    by_cases hone : ctx.input1.Shape.SizeFromDimension k = 1
    · rw [if_pos hone] at h
      simp [launchOf] at h
    · rw [if_neg hone] at h
      simp only [launchOf, Option.some.injEq] at h
      subst h
      exact ⟨rfl, hone, rfl, rfl, rfl, rfl⟩
  · rw [standard_run_of_rejected axis_ ctx _ hrej] at h
    simp [launchOf] at h

theorem launch_of_invertible (ctx : OpKernelContext) (axis_ : Int) (a : KernelArgs)
    (h : launchOf (InvertibleLayerNormGrad.ComputeInternal
      (InvertibleLayerNormGrad.mk axis_) ctx).trace = some a) :
    a.part_size = 16 ∧ a.n2 ≠ 1 ∧ a.Y_grad_data = ctx.input0.data ∧
      a.X_data = none ∧ a.Y_data = some ctx.input1.data ∧
      a.bias_data = some ctx.input3.data ∧ a.scale_data = ctx.input2.data := by
  rcases handleNegativeAxis_cases axis_ ctx.input1.Shape.NumDimensions with ⟨k, _, hres⟩ | hrej
  · rw [invertible_run_of_resolved axis_ ctx k hres] at h
    by_cases hone : ctx.input1.Shape.SizeFromDimension k = 1
    · rw [if_pos hone] at h
      simp [launchOf] at h
    · rw [if_neg hone] at h
      simp only [launchOf, Option.some.injEq] at h
      subst h
      exact ⟨rfl, hone, rfl, rfl, rfl, rfl, rfl⟩
  · rw [invertible_run_of_rejected axis_ ctx _ hrej] at h
    simp [launchOf] at h

/-- C3: for the arguments `a` of a launch made by either operator (so `n2` is
not 1 and `part_size` is 16), for every partition count `P` and every
row-to-partition mapping into `P` partitions, accumulation followed by the
partial reduction gives, for every column `j`, `scale_grad[j]` equal to the
sum over all rows `i` of `dY[i][j] * x_hat[i][j]` and `bias_grad[j]` equal to
the sum over all rows `i` of `dY[i][j]`; so the result is the one obtained with
the 16 partitions passed by the operator and rows assigned modulo 16. Here
`x_hat` is `(X - mean) * inv_std` in a Standard launch and
`(Y - bias) / scale` in an Invertible launch. -/
theorem parameter_gradients_are_column_sums (ctx : OpKernelContext) (axis_ : Int)
    (a : KernelArgs)
    (hlaunch :
      launchOf (LayerNormGrad.ComputeInternal (LayerNormGrad.mk axis_) ctx).trace = some a ∨
      launchOf (InvertibleLayerNormGrad.ComputeInternal
        (InvertibleLayerNormGrad.mk axis_) ctx).trace = some a)
    (P : Nat) (partition : Nat → Nat) (hpart : ∀ i, i < a.n1 → partition i < P)
    (j : Nat) (hj : j < a.n2) :
    (a.part_size = 16 ∧ a.n2 ≠ 1) ∧
      (HostLayerNormGradient a P partition).scale_grad.getD j 0 =
        ∑ i in Finset.range a.n1, dY a i j * x_hat a i j ∧
      (HostLayerNormGradient a P partition).bias_grad.getD j 0 =
        ∑ i in Finset.range a.n1, dY a i j ∧
      (HostLayerNormGradient a P partition).scale_grad.getD j 0 =
        (HostLayerNormGradient a a.part_size (defaultPartition a.part_size)).scale_grad.getD j 0 ∧
      (HostLayerNormGradient a P partition).bias_grad.getD j 0 =
        (HostLayerNormGradient a a.part_size (defaultPartition a.part_size)).bias_grad.getD j 0 ∧
      (launchOf (LayerNormGrad.ComputeInternal (LayerNormGrad.mk axis_) ctx).trace = some a →
        ∀ i : Nat, dY a i j = ctx.input0.data.getD (i * a.n2 + j) 0 ∧
          x_hat a i j =
            (ctx.input1.data.getD (i * a.n2 + j) 0 - ctx.input3.data.getD i 0) *
              ctx.input4.data.getD i 0) ∧
      (launchOf (InvertibleLayerNormGrad.ComputeInternal
          (InvertibleLayerNormGrad.mk axis_) ctx).trace = some a →
        ∀ i : Nat, dY a i j = ctx.input0.data.getD (i * a.n2 + j) 0 ∧
          x_hat a i j =
            (ctx.input1.data.getD (i * a.n2 + j) 0 - ctx.input3.data.getD j 0) /
              ctx.input2.data.getD j 0) := by
  have hsize : a.part_size = 16 ∧ a.n2 ≠ 1 := by
    rcases hlaunch with h | h
    · exact ⟨(launch_of_standard ctx axis_ a h).1, (launch_of_standard ctx axis_ a h).2.1⟩
    · exact ⟨(launch_of_invertible ctx axis_ a h).1, (launch_of_invertible ctx axis_ a h).2.1⟩
  have hdefault : ∀ i, i < a.n1 → defaultPartition a.part_size i < a.part_size := by
    intro i _
    rw [hsize.1]
    exact Nat.mod_lt i (by decide)
  have hgamma := two_phase_sum (fun i j => dY a i j * x_hat a i j) partition P a.n1 a.n2 hpart j hj
  have hbeta := two_phase_sum (fun i j => dY a i j) partition P a.n1 a.n2 hpart j hj
  have hgamma16 := two_phase_sum (fun i j => dY a i j * x_hat a i j)
    (defaultPartition a.part_size) a.part_size a.n1 a.n2 hdefault j hj
  have hbeta16 := two_phase_sum (fun i j => dY a i j)
    (defaultPartition a.part_size) a.part_size a.n1 a.n2 hdefault j hj
  refine ⟨hsize, hgamma, hbeta, ?_, ?_, ?_, ?_⟩
  · exact hgamma.trans hgamma16.symm
  · exact hbeta.trans hbeta16.symm
  · intro h i
    obtain ⟨_, _, hdy, hx, hmean, hinv⟩ := launch_of_standard ctx axis_ a h
    constructor
    · simp only [dY, hdy]
    · simp only [x_hat, hx, hmean, hinv]
  · intro h i
    obtain ⟨_, _, hdy, hx, hy, hbias, hscale⟩ := launch_of_invertible ctx axis_ a h
    constructor
    · simp only [dY, hdy]
    · simp only [x_hat, hx, hy, hbias, hscale]

theorem parameter_gradients_are_column_sums_witness :
    launchOf (LayerNormGrad.ComputeInternal (LayerNormGrad.mk 1)
        (OpKernelContext.mk ⟨⟨[2, 3]⟩, [1, 2, 3, 4, 5, 6]⟩ ⟨⟨[2, 3]⟩, [1, 2, 3, 4, 5, 7]⟩
          ⟨⟨[3]⟩, [1, 1, 1]⟩ ⟨⟨[2]⟩, [2, 5]⟩ ⟨⟨[2]⟩, [1, 2]⟩)).trace =
      some (KernelArgs.mk [1, 2, 3, 4, 5, 6] (some [1, 2, 3, 4, 5, 7]) none [1, 1, 1] none
          (some [2, 5]) [1, 2] 2 3 0 1 2 0 1 16) ∧
    (HostLayerNormGradient
        (KernelArgs.mk [1, 2, 3, 4, 5, 6] (some [1, 2, 3, 4, 5, 7]) none [1, 1, 1] none
          (some [2, 5]) [1, 2] 2 3 0 1 2 0 1 16)
        3 (fun i => (i + 1) % 3)).scale_grad.getD 2 0 =
      ∑ i in Finset.range 2,
        dY (KernelArgs.mk [1, 2, 3, 4, 5, 6] (some [1, 2, 3, 4, 5, 7]) none [1, 1, 1] none
          (some [2, 5]) [1, 2] 2 3 0 1 2 0 1 16) i 2 *
        x_hat (KernelArgs.mk [1, 2, 3, 4, 5, 6] (some [1, 2, 3, 4, 5, 7]) none [1, 1, 1] none
          (some [2, 5]) [1, 2] 2 3 0 1 2 0 1 16) i 2 ∧
    (HostLayerNormGradient
        (KernelArgs.mk [1, 2, 3, 4, 5, 6] (some [1, 2, 3, 4, 5, 7]) none [1, 1, 1] none
          (some [2, 5]) [1, 2] 2 3 0 1 2 0 1 16)
        3 (fun i => (i + 1) % 3)).bias_grad.getD 2 0 =
      ∑ i in Finset.range 2,
        dY (KernelArgs.mk [1, 2, 3, 4, 5, 6] (some [1, 2, 3, 4, 5, 7]) none [1, 1, 1] none
          (some [2, 5]) [1, 2] 2 3 0 1 2 0 1 16) i 2 :=
  ⟨by decide,
    (parameter_gradients_are_column_sums
      (OpKernelContext.mk ⟨⟨[2, 3]⟩, [1, 2, 3, 4, 5, 6]⟩ ⟨⟨[2, 3]⟩, [1, 2, 3, 4, 5, 7]⟩
          ⟨⟨[3]⟩, [1, 1, 1]⟩ ⟨⟨[2]⟩, [2, 5]⟩ ⟨⟨[2]⟩, [1, 2]⟩)
      1
      (KernelArgs.mk [1, 2, 3, 4, 5, 6] (some [1, 2, 3, 4, 5, 7]) none [1, 1, 1] none
          (some [2, 5]) [1, 2] 2 3 0 1 2 0 1 16)
      (Or.inl (by decide)) 3 (fun i => (i + 1) % 3)
      (fun i _ => Nat.mod_lt (i + 1) (by decide)) 2 (by decide)).2.1,
    (parameter_gradients_are_column_sums
      (OpKernelContext.mk ⟨⟨[2, 3]⟩, [1, 2, 3, 4, 5, 6]⟩ ⟨⟨[2, 3]⟩, [1, 2, 3, 4, 5, 7]⟩
          ⟨⟨[3]⟩, [1, 1, 1]⟩ ⟨⟨[2]⟩, [2, 5]⟩ ⟨⟨[2]⟩, [1, 2]⟩)
      1
      (KernelArgs.mk [1, 2, 3, 4, 5, 6] (some [1, 2, 3, 4, 5, 7]) none [1, 1, 1] none
          (some [2, 5]) [1, 2] 2 3 0 1 2 0 1 16)
      (Or.inl (by decide)) 3 (fun i => (i + 1) % 3)
      (fun i _ => Nat.mod_lt (i + 1) (by decide)) 2 (by decide)).2.2.1⟩

end rocm
end onnxruntime
